import Mathlib

/-!
Verification development for the crafty-reverse-proxy connection-lifecycle
core: a shallow embedding of the per-route connector event loop
(internal/modules/connector/conn_controller.go), the server operator's timer
management (internal/modules/mc_operator/mc_server_operator.go) and the
duplex proxy handler (internal/modules/proxy/proxy_server.go), together with
theorems about the lifecycle state machine, player accounting, idle-shutdown
timing and the handler's acquire/release discipline.
-/

namespace CraftyProxy

/-- Lifecycle states of the connector state machine
(connector state constants: stateOff, stateStartingUp, stateRunning,
stateEmpty). -/
inductive McState
  | off
  | startingUp
  | running
  | empty
deriving DecidableEq

/-- Backend connections are identified abstractly. -/
abbrev Conn := Nat

/-- Typed failures surfaced by an acquire. In the source these are the errors
returned by StartMcServer, AwaitForServerStart (ErrTimeoutReached) and
ConnectToServer respectively. -/
inductive AcquireError
  | startFailure
  | pollTimeout
  | dialFailure
deriving DecidableEq

instance : DecidableEq (Except AcquireError Conn) := fun a b =>
  match a, b with
  | Except.ok x, Except.ok y =>
      if h : x = y then isTrue (by rw [h]) else isFalse (by intro hc; cases hc; exact h rfl)
  | Except.error x, Except.error y =>
      if h : x = y then isTrue (by rw [h]) else isFalse (by intro hc; cases hc; exact h rfl)
  | Except.ok _, Except.error _ => isFalse (by intro hc; cases hc)
  | Except.error _, Except.ok _ => isFalse (by intro hc; cases hc)

/-- Whether an acquire result is a success. -/
def isOkB : Except AcquireError Conn → Bool
  | Except.ok _ => true
  | Except.error _ => false

/-- Outcome of the three external operator calls made while serving an
acquire (StartMinecraftServer, AwaitForServerStart, ConnectToServer). A fixed
behaviour models a backend and control plane that answer each kind of call
the same way for the whole trace. -/
structure OpBehavior where
  startOk : Bool
  awaitOk : Bool
  dialOk : Bool
deriving DecidableEq

/-- A healthy backend: start, readiness poll and dial all succeed. -/
def bAll : OpBehavior := { startOk := true, awaitOk := true, dialOk := true }

/-- Timer bookkeeping of ServerOperator (mc_server_operator.go).
`shutDownTimer` models the stored field of the same name; `liveTimers` is the
set of armed timers that have neither been stopped nor fired (identified by
creation order); `stopCount` counts the StopMcServer invocations made by
fired timer callbacks. -/
structure OperatorState where
  shutDownTimer : Option Nat
  liveTimers : List Nat
  nextTimerId : Nat
  stopCount : Nat
deriving DecidableEq

/-- ScheduleShutdown (mc_server_operator.go:115-123): the operator assigns
`so.shutDownTimer = time.AfterFunc(so.shutDownTimeout, ...)`. A fresh timer
is armed and its reference stored; the previously stored timer, if any, is
overwritten but not stopped, so it stays live. -/
def ScheduleShutdown (os : OperatorState) : OperatorState :=
  { os with
    shutDownTimer := some os.nextTimerId
    liveTimers := os.nextTimerId :: os.liveTimers
    nextTimerId := os.nextTimerId + 1 }

/-- StopShuttingDown (mc_server_operator.go:126-131): if a timer reference is
stored, that timer is stopped and the reference cleared. Only the stored
timer is affected. -/
def StopShuttingDown (os : OperatorState) : OperatorState :=
  match os.shutDownTimer with
  | none => os
  | some t => { os with shutDownTimer := none, liveTimers := os.liveTimers.erase t }

/-- Modelled from the spec: the connector's ServerOperator interface declares
`ScheduleShutdown(shutdownEmitter chan<- struct)` and StartLoop passes
`cc.shutdownCh` at the call site, but the matching operator implementation is
not among the source files (the mc_operator file carries a superseded
channel-less variant of ScheduleShutdown). Per the spec, the fired timer
callback invokes the control-plane stop command and then posts an event on
the emitter channel instead of mutating controller state. Firing is only
possible for a timer that is still live (a stopped timer never fires).
Returns the updated operator state and whether a shutdown event was posted
to the connector's event stream. -/
def timerCallback (os : OperatorState) (t : Nat) : OperatorState × Bool :=
  if t ∈ os.liveTimers then
    ({ os with liveTimers := os.liveTimers.erase t, stopCount := os.stopCount + 1 }, true)
  else
    (os, false)

/-- Per-route connector state (the Connector struct of conn_controller.go)
plus counters for the externally visible start and poll commands. -/
structure SysState where
  playerCount : Int
  state : McState
  autoshutdown : Bool
  op : OperatorState
  startCount : Nat
  awaitCount : Nat
deriving DecidableEq

/-- The stateRunning arm of processState (conn_controller.go:155-162): dial
the backend; on success increment the player count and return the
connection, on failure fall back to stateOff and surface DialFailure. -/
def fromRunning (b : OpBehavior) (s : SysState) : Except AcquireError Conn × SysState :=
  if b.dialOk then
    (Except.ok 0, { s with playerCount := s.playerCount + 1 })
  else
    (Except.error AcquireError.dialFailure, { s with state := McState.off })

/-- The stateEmpty arm of processState (conn_controller.go:152-154): cancel a
pending shutdown timer, move to stateRunning and continue. -/
def fromEmpty (b : OpBehavior) (s : SysState) : Except AcquireError Conn × SysState :=
  fromRunning b { s with op := StopShuttingDown s.op, state := McState.running }

/-- The stateStartingUp arm of processState (conn_controller.go:147-151): run
one AwaitForServerStart poll sequence; on success move to stateEmpty and
continue, on failure return PollTimeout (the state is left at
stateStartingUp, as in the source). -/
def fromStartingUp (b : OpBehavior) (s : SysState) : Except AcquireError Conn × SysState :=
  let s := { s with awaitCount := s.awaitCount + 1 }
  if b.awaitOk then
    fromEmpty b { s with state := McState.empty }
  else
    (Except.error AcquireError.pollTimeout, s)

/-- The stateOff arm of processState (conn_controller.go:142-146): issue the
control-plane start command; on success move to stateStartingUp and
continue, on failure return StartFailure with the state still stateOff. -/
def fromOff (b : OpBehavior) (s : SysState) : Except AcquireError Conn × SysState :=
  let s := { s with startCount := s.startCount + 1 }
  if b.startOk then
    fromStartingUp b { s with state := McState.startingUp }
  else
    (Except.error AcquireError.startFailure, s)

/-- processState (conn_controller.go:139-165): walk the state machine until a
connection is dialed or an error is returned. The for-switch loop of the
source visits each state at most once per call, so it is expressed as the
chain of its four arms. -/
def processState (b : OpBehavior) (s : SysState) : Except AcquireError Conn × SysState :=
  match s.state with
  | McState.off => fromOff b s
  | McState.startingUp => fromStartingUp b s
  | McState.empty => fromEmpty b s
  | McState.running => fromRunning b s

/-- shutdownMiddleware (conn_controller.go:167-172): set stateEmpty and, when
autoshutdown is enabled, arm the idle shutdown timer. -/
def shutdownMiddleware (s : SysState) : SysState :=
  let s := { s with state := McState.empty }
  if s.autoshutdown then { s with op := ScheduleShutdown s.op } else s

/-- The shutdownCh arm of StartLoop (conn_controller.go:129-132): the loop
consumes a posted shutdown event and performs the Empty to Off transition;
in any other state the event is ignored. -/
def loopShutdownStep (s : SysState) : SysState :=
  if s.state = McState.empty then { s with state := McState.off } else s

/-- Events consumed by one route's serialized event loop: an acquire request
(getConnCh), a release carrying a possibly-nil connection (putConnCh), and
the firing of an armed shutdown timer. -/
inductive SysEvent
  | acquire
  | release (c : Option Conn)
  | timerFire (t : Nat)
deriving DecidableEq

/-- One step of the serialized loop (StartLoop, conn_controller.go:113-135):
an acquire request is served by processState; a release of a nil connection
is ignored; a release of a non-nil connection decrements the player count
and, when it reaches zero, runs shutdownMiddleware; a firing timer runs the
operator callback and, when an event was posted, the loop consumes it. -/
def stepSys (b : OpBehavior) (s : SysState) : SysEvent → SysState
  | SysEvent.acquire => (processState b s).2
  | SysEvent.release none => s
  | SysEvent.release (some _) =>
      let s2 := { s with playerCount := s.playerCount - 1 }
      if s2.playerCount = 0 then shutdownMiddleware s2 else s2
  | SysEvent.timerFire t =>
      let r := timerCallback s.op t
      let s2 := { s with op := r.1 }
      if r.2 then loopShutdownStep s2 else s2

/-- Run the serialized loop over a queue of events in arrival order. -/
def runSys (b : OpBehavior) (s : SysState) : List SysEvent → SysState
  | [] => s
  | e :: es => runSys b (stepSys b s e) es

/-- New (conn_controller.go:57-70): fresh per-route state, stateOff, zero
players, no timer. -/
def newConnector (auto : Bool) : SysState :=
  { playerCount := 0
    state := McState.off
    autoshutdown := auto
    op := { shutDownTimer := none, liveTimers := [], nextTimerId := 0, stopCount := 0 }
    startCount := 0
    awaitCount := 0 }

/-- The bootstrap check at the top of StartLoop (conn_controller.go:108-111):
if IsServerRunning reports the backend reachable, shutdownMiddleware runs
before the loop starts; otherwise the state is left as constructed. -/
def startLoopInit (isRunning : Bool) (s : SysState) : SysState :=
  if isRunning then shutdownMiddleware s else s

/-- Result observed by a GetConnection caller. -/
inductive GetOutcome
  | cancelled
  | reply (r : Except AcquireError Conn)

instance : DecidableEq GetOutcome := fun a b =>
  match a, b with
  | GetOutcome.cancelled, GetOutcome.cancelled => isTrue rfl
  | GetOutcome.reply x, GetOutcome.reply y =>
      if h : x = y then isTrue (by rw [h]) else isFalse (by intro hc; cases hc; exact h rfl)
  | GetOutcome.cancelled, GetOutcome.reply _ => isFalse (by intro hc; cases hc)
  | GetOutcome.reply _, GetOutcome.cancelled => isFalse (by intro hc; cases hc)

/-- GetConnection (conn_controller.go:74-90) together with the loop work it
triggers. The caller runs two selects: if the deadline expires before the
request is accepted on getConnCh, the call returns context.Canceled and the
loop never sees the request; if it expires after, the loop has already run
processState for this request and the call returns context.Canceled while
that state change stands; otherwise the caller reads the reply package. -/
def GetConnection (b : OpBehavior) (expiredBeforeSend expiredBeforeReply : Bool)
    (s : SysState) : GetOutcome × SysState :=
  if expiredBeforeSend then
    (GetOutcome.cancelled, s)
  else
    let r := processState b s
    if expiredBeforeReply then (GetOutcome.cancelled, r.2)
    else (GetOutcome.reply r.1, r.2)

/-- Result observed by a PutConnection caller. -/
inductive PutResult
  | ok
  | cancelled
deriving DecidableEq

/-- PutConnection (conn_controller.go:94-104): returns nil when the send on
putConnCh is accepted before the deadline, context.Canceled otherwise. -/
def PutConnection (delivered : Bool) : PutResult :=
  if delivered then PutResult.ok else PutResult.cancelled

/-- Actions performed by one proxy session handler, in order. -/
inductive HAction
  | acquireOk (c : Conn)
  | acquireFail (e : AcquireError)
  | copyServerToClient (errored : Bool)
  | copyClientToServer (errored : Bool)
  | putConn (c : Option Conn)
  | closeBackend
  | closeClient
deriving DecidableEq

/-- handleClient (proxy_server.go:88-125) as the trace of its actions. The
client close is deferred first (so it runs last); PutConnection is deferred
unconditionally right after GetConnection, so on acquire failure it still
runs with a nil connection. On success the server-to-client copy runs in a
goroutine, the client-to-server copy runs inline, and the handler waits on
the completed channel, so both directions finish (whether or not they
errored) before the deferred PutConnection and the deferred client close
run. The `releaseDelivered` flag models the select inside PutConnection
(conn_controller.go:98-103): when the send on putConnCh is accepted before
the deadline, the loop's putConnCh arm closes the backend socket
(conn_controller.go:127); when the deadline expires first, PutConnection
returns context.Canceled, the handler only logs it (proxy_server.go:93-96),
and no one closes the backend socket. -/
def handleClient (acq : Except AcquireError Conn) (errS2C errC2S : Bool)
    (releaseDelivered : Bool) : List HAction :=
  match acq with
  | Except.error e =>
      [HAction.acquireFail e, HAction.putConn none, HAction.closeClient]
  | Except.ok c =>
      [HAction.acquireOk c,
       HAction.copyServerToClient errS2C,
       HAction.copyClientToServer errC2S,
       HAction.putConn (some c)]
      ++ (if releaseDelivered then [HAction.closeBackend] else [])
      ++ [HAction.closeClient]

/-- Whether a handler action is the release (PutConnection call). -/
def isPut : HAction → Bool
  | HAction.putConn _ => true
  | _ => false

/-- The actions a handler performs before its release. -/
def beforeRelease (t : List HAction) : List HAction :=
  t.takeWhile fun a => !(isPut a)

/-- Where the event loop stands after serving one acquire request: back at
its select, or stuck in the send of the reply package. -/
inductive LoopPhase
  | idle
  | blockedOnReply (r : Except AcquireError Conn)

instance : DecidableEq LoopPhase := fun a b =>
  match a, b with
  | LoopPhase.idle, LoopPhase.idle => isTrue rfl
  | LoopPhase.blockedOnReply x, LoopPhase.blockedOnReply y =>
      if h : x = y then isTrue (by rw [h]) else isFalse (by intro hc; cases hc; exact h rfl)
  | LoopPhase.idle, LoopPhase.blockedOnReply _ => isFalse (by intro hc; cases hc)
  | LoopPhase.blockedOnReply _, LoopPhase.idle => isFalse (by intro hc; cases hc)

/-- Configuration of the event loop around serving one acquire request:
how many GetConnection callers are currently waiting in their reply select
on connCh, and whether the loop has closed the connection it dialed. -/
structure LoopConfig where
  sys : SysState
  phase : LoopPhase
  waitingReceivers : Nat
  orphanClosed : Bool
deriving DecidableEq

/-- The getConnCh arm of StartLoop (conn_controller.go:118-120): the loop
runs processState and then performs a blocking send of the reply package on
the unbuffered connCh. The send completes only when some caller is waiting
in its reply select; otherwise the loop stays in the send. No branch of
this arm closes the dialed connection. -/
def serveGet (b : OpBehavior) (c : LoopConfig) : LoopConfig :=
  let r := processState b c.sys
  if 0 < c.waitingReceivers then
    { c with
      sys := r.2
      phase := LoopPhase.idle
      waitingReceivers := c.waitingReceivers - 1 }
  else
    { c with sys := r.2, phase := LoopPhase.blockedOnReply r.1 }

/-- Whether serving this event performed a successful acquire (the branch of
processState that increments the player count). -/
def succAcquire (b : OpBehavior) (s : SysState) : SysEvent → Bool
  | SysEvent.acquire => isOkB (processState b s).1
  | _ => false

/-- Whether this event is a release of a non-nil connection. -/
def relNonNil : SysEvent → Bool
  | SysEvent.release (some _) => true
  | _ => false

/-- Number of non-nil releases in an event queue. -/
def relCount (evs : List SysEvent) : Nat := evs.countP relNonNil

/-- Number of successful acquires along the run of an event queue. -/
def succCount (b : OpBehavior) : SysState → List SysEvent → Nat
  | _, [] => 0
  | s, e :: es => (if succAcquire b s e then 1 else 0) + succCount b (stepSys b s e) es

/-- The fresh operator state (New, mc_server_operator.go:49-60). -/
def freshOperator : OperatorState :=
  { shutDownTimer := none, liveTimers := [], nextTimerId := 0, stopCount := 0 }

/-- The loop configuration of the C-series abandoned-caller scenario: a fresh
route, one acquire request already dequeued, and no caller left waiting for
the reply (the requesting caller's deadline expired after the enqueue). -/
def abandonedConfig : LoopConfig :=
  { sys := newConnector true
    phase := LoopPhase.idle
    waitingReceivers := 0
    orphanClosed := false }

/-! Helper lemmas shared by the claim theorems. -/

theorem StopShuttingDown_stopCount (os : OperatorState) :
    (StopShuttingDown os).stopCount = os.stopCount := by
  cases h : os.shutDownTimer <;> simp [StopShuttingDown, h]

theorem StopShuttingDown_liveTimers_nil (os : OperatorState)
    (h : os.liveTimers = []) : (StopShuttingDown os).liveTimers = [] := by
  cases ht : os.shutDownTimer <;> simp [StopShuttingDown, ht, h]

theorem processState_op (b : OpBehavior) (s : SysState) :
    (processState b s).2.op = s.op ∨ (processState b s).2.op = StopShuttingDown s.op := by
  obtain ⟨bs, ba, bd⟩ := b
  obtain ⟨pc, st, au, os, sc, ac⟩ := s
  cases st <;> cases bs <;> cases ba <;> cases bd <;>
    simp [processState, fromOff, fromStartingUp, fromEmpty, fromRunning]

theorem processState_autoshutdown (b : OpBehavior) (s : SysState) :
    (processState b s).2.autoshutdown = s.autoshutdown := by
  obtain ⟨bs, ba, bd⟩ := b
  obtain ⟨pc, st, au, os, sc, ac⟩ := s
  cases st <;> cases bs <;> cases ba <;> cases bd <;>
    simp [processState, fromOff, fromStartingUp, fromEmpty, fromRunning]

theorem processState_playerCount (b : OpBehavior) (s : SysState) :
    (processState b s).2.playerCount =
      (if isOkB (processState b s).1 then s.playerCount + 1 else s.playerCount) := by
  obtain ⟨bs, ba, bd⟩ := b
  obtain ⟨pc, st, au, os, sc, ac⟩ := s
  cases st <;> cases bs <;> cases ba <;> cases bd <;>
    simp [processState, fromOff, fromStartingUp, fromEmpty, fromRunning, isOkB]

theorem shutdownMiddleware_playerCount (s : SysState) :
    (shutdownMiddleware s).playerCount = s.playerCount := by
  simp only [shutdownMiddleware]
  split <;> rfl

theorem shutdownMiddleware_autoshutdown (s : SysState) :
    (shutdownMiddleware s).autoshutdown = s.autoshutdown := by
  simp only [shutdownMiddleware]
  split <;> rfl

theorem shutdownMiddleware_noauto (s : SysState) (h : s.autoshutdown = false) :
    (shutdownMiddleware s).op = s.op := by
  simp [shutdownMiddleware, h]

theorem loopShutdownStep_playerCount (s : SysState) :
    (loopShutdownStep s).playerCount = s.playerCount := by
  simp only [loopShutdownStep]
  split <;> rfl

theorem loopShutdownStep_op (s : SysState) :
    (loopShutdownStep s).op = s.op := by
  simp only [loopShutdownStep]
  split <;> rfl

/-- Player-count change of one loop step: plus one on a successful acquire,
minus one on a non-nil release, unchanged otherwise. -/
theorem stepSys_playerCount (b : OpBehavior) (s : SysState) (e : SysEvent) :
    (stepSys b s e).playerCount =
      s.playerCount + (if succAcquire b s e then 1 else 0)
        - (if relNonNil e then 1 else 0) := by
  cases e with
  | acquire =>
      have h := processState_playerCount b s
      simp only [stepSys, succAcquire, relNonNil] at *
      split at h <;> simp [*]
  | release c =>
      cases c with
      | none => simp [stepSys, succAcquire, relNonNil]
      | some c =>
          simp only [stepSys, succAcquire, relNonNil]
          split
          · rw [shutdownMiddleware_playerCount]
            simp
          · simp
  | timerFire t =>
      simp only [stepSys, succAcquire, relNonNil]
      split
      · rw [loopShutdownStep_playerCount]
        simp
      · simp

/-- Player count along a run: initial count plus successful acquires minus
non-nil releases. -/
theorem runSys_playerCount (b : OpBehavior) (evs : List SysEvent) (s : SysState) :
    (runSys b s evs).playerCount =
      s.playerCount + (succCount b s evs : Int) - (relCount evs : Int) := by
  induction evs generalizing s with
  | nil => simp [runSys, succCount, relCount]
  | cons e es ih =>
      rw [runSys, ih, stepSys_playerCount]
      simp only [succCount, relCount, List.countP_cons]
      push_cast
      by_cases h1 : succAcquire b s e <;> by_cases h2 : relNonNil e <;>
        simp [h1, h2, relCount] <;> omega

/-- Serving an acquire from Off with a healthy backend issues the start
command and the poll sequence once each and lands in Running with one more
player. -/
theorem stepAcquire_off (s : SysState) (hs : s.state = McState.off) :
    stepSys bAll s SysEvent.acquire =
      { s with
        state := McState.running
        op := StopShuttingDown s.op
        playerCount := s.playerCount + 1
        startCount := s.startCount + 1
        awaitCount := s.awaitCount + 1 } := by
  obtain ⟨pc, st, au, os, sc, ac⟩ := s
  subst hs
  rfl

/-- Serving an acquire from Running with a successful dial only increments
the player count. -/
theorem stepAcquire_running (b : OpBehavior) (s : SysState)
    (hs : s.state = McState.running) (hd : b.dialOk = true) :
    stepSys b s SysEvent.acquire = { s with playerCount := s.playerCount + 1 } := by
  obtain ⟨pc, st, au, os, sc, ac⟩ := s
  subst hs
  simp [stepSys, processState, fromRunning, hd]

/-- A queue of acquires served from Running with a healthy backend issues no
start command and no poll sequence and stays in Running. -/
theorem run_replicate_running (m : Nat) (s : SysState)
    (hs : s.state = McState.running) :
    (runSys bAll s (List.replicate m SysEvent.acquire)).startCount = s.startCount ∧
    (runSys bAll s (List.replicate m SysEvent.acquire)).awaitCount = s.awaitCount ∧
    (runSys bAll s (List.replicate m SysEvent.acquire)).state = McState.running := by
  induction m generalizing s with
  | zero => simpa [runSys] using hs
  | succ k ih =>
      rw [List.replicate_succ, runSys, stepAcquire_running bAll s hs rfl]
      exact ih { s with playerCount := s.playerCount + 1 } hs

/-- One loop step never changes the autoshutdown flag. -/
theorem stepSys_autoshutdown (b : OpBehavior) (s : SysState) (e : SysEvent) :
    (stepSys b s e).autoshutdown = s.autoshutdown := by
  cases e with
  | acquire => exact processState_autoshutdown b s
  | release c =>
      cases c with
      | none => rfl
      | some c =>
          simp only [stepSys]
          split
          · rw [shutdownMiddleware_autoshutdown]
          · rfl
  | timerFire t =>
      simp only [stepSys]
      split
      · simp only [loopShutdownStep]
        split <;> rfl
      · rfl

/-- With autoshutdown disabled and no live timer, one loop step arms no timer
and performs no stop. -/
theorem stepSys_noauto (b : OpBehavior) (s : SysState) (e : SysEvent)
    (hA : s.autoshutdown = false) (hT : s.op.liveTimers = []) :
    (stepSys b s e).op.liveTimers = [] ∧
    (stepSys b s e).op.stopCount = s.op.stopCount := by
  cases e with
  | acquire =>
      rcases processState_op b s with h | h <;> rw [stepSys, h]
      · exact ⟨hT, rfl⟩
      · exact ⟨StopShuttingDown_liveTimers_nil s.op hT, StopShuttingDown_stopCount s.op⟩
  | release c =>
      cases c with
      | none => exact ⟨hT, rfl⟩
      | some c =>
          simp only [stepSys]
          split
          · rw [shutdownMiddleware_noauto _ (by simpa using hA)]
            exact ⟨hT, rfl⟩
          · exact ⟨hT, rfl⟩
  | timerFire t =>
      simp [stepSys, timerCallback, hT]

/-- With autoshutdown disabled, along any run: the flag stays disabled, no
timer is ever live and the stop count never moves. -/
theorem run_noauto (b : OpBehavior) (evs : List SysEvent) (s : SysState)
    (hA : s.autoshutdown = false) (hT : s.op.liveTimers = []) :
    (runSys b s evs).autoshutdown = false ∧
    (runSys b s evs).op.liveTimers = [] ∧
    (runSys b s evs).op.stopCount = s.op.stopCount := by
  induction evs generalizing s with
  | nil => exact ⟨hA, hT, rfl⟩
  | cons e es ih =>
      rw [runSys]
      have ha2 : (stepSys b s e).autoshutdown = false := by
        rw [stepSys_autoshutdown]; exact hA
      obtain ⟨h1, h2⟩ := stepSys_noauto b s e hA hT
      obtain ⟨g1, g2, g3⟩ := ih (stepSys b s e) ha2 h1
      exact ⟨g1, g2, g3.trans h2⟩

/-! Claim theorems. -/

/-- Claim C5, counterexample: starting from a fresh operator, two consecutive
ScheduleShutdown calls leave BOTH timers live — the claim that re-arming
cancels and replaces the previous timer, so that there are never two live
timers for one route, is false of the source: ScheduleShutdown overwrites
the stored reference without stopping the previous timer. -/
theorem scheduleShutdown_counterexample :
    (ScheduleShutdown (ScheduleShutdown freshOperator)).liveTimers = [1, 0] ∧
    ¬((ScheduleShutdown (ScheduleShutdown freshOperator)).liveTimers.length ≤ 1) := by
  decide

/-- Claim C5, amended: ScheduleShutdown arms a fresh timer and replaces only
the operator's stored reference; the previously armed timers remain live.
A subsequent StopShuttingDown cancels exactly the most recently armed timer
and clears the reference. So at most one timer is referenced at any time,
but re-arming can leave more than one timer live. -/
theorem scheduleShutdown_replaces_reference (os : OperatorState) :
    (ScheduleShutdown os).shutDownTimer = some os.nextTimerId ∧
    (ScheduleShutdown os).liveTimers = os.nextTimerId :: os.liveTimers ∧
    (StopShuttingDown (ScheduleShutdown os)).liveTimers = os.liveTimers ∧
    (StopShuttingDown (ScheduleShutdown os)).shutDownTimer = none := by
  refine ⟨rfl, rfl, ?_, ?_⟩ <;> simp [ScheduleShutdown, StopShuttingDown]

/-- Claim C9: at StartLoop time, if IsServerRunning reports the backend
reachable, the connector moves to Empty and, when autoshutdown is enabled,
immediately arms the idle shutdown timer — so firing that timer stops the
already-running backend (stop invoked once, state Off) even if no client
ever connects; with autoshutdown disabled no timer is armed; and if the
backend is not reachable the state stays as constructed, namely Off. -/
theorem startLoop_bootstrap :
    (∀ a : Bool, (startLoopInit true (newConnector a)).state = McState.empty) ∧
    (startLoopInit true (newConnector true)).op.liveTimers = [0] ∧
    (startLoopInit true (newConnector false)).op.liveTimers = [] ∧
    (stepSys bAll (startLoopInit true (newConnector true))
      (SysEvent.timerFire 0)).op.stopCount = 1 ∧
    (stepSys bAll (startLoopInit true (newConnector true))
      (SysEvent.timerFire 0)).state = McState.off ∧
    (∀ a : Bool, startLoopInit false (newConnector a) = newConnector a) ∧
    (newConnector true).state = McState.off := by
  decide

/-- Claim C10: a release carrying a nil connection leaves the connector state
completely unchanged — no player-count decrement, no state transition, no
timer change — and the PutConnection call itself returns nil when the send
is accepted; consequently the handler's unconditional deferred release is
safe on the acquire-failure path, where it runs with a nil connection. -/
theorem putConnection_nil_frame :
    (∀ (b : OpBehavior) (s : SysState), stepSys b s (SysEvent.release none) = s) ∧
    PutConnection true = PutResult.ok ∧
    (∀ (e : AcquireError) (x y d : Bool),
      HAction.putConn none ∈ handleClient (Except.error e) x y d) := by
  refine ⟨fun b s => rfl, rfl, fun e x y d => ?_⟩
  simp [handleClient]

/-- Claim C3, evaluation at the failing input: one acquire request has been
dequeued by the loop while its caller's deadline has expired and no other
caller is waiting on connCh. The in-flight transition does complete (the
route reaches Running with the backend started), but the loop then stays
blocked in the unbuffered send of the reply package, and the dialed
connection is never closed — contradicting the claim that reply delivery
does not block the loop forever and that the orphaned connection is closed. -/
theorem abandoned_reply_blocks_loop :
    (serveGet bAll abandonedConfig).sys.state = McState.running ∧
    (serveGet bAll abandonedConfig).sys.startCount = 1 ∧
    (serveGet bAll abandonedConfig).phase = LoopPhase.blockedOnReply (Except.ok 0) ∧
    (serveGet bAll abandonedConfig).orphanClosed = false := by
  decide

/-- Claim C6, counterexample: a session whose acquire succeeded but whose
release send times out (the PutConnection deadline expires before the loop
accepts it, conn_controller.go:98-103). Both copy directions finished and
the release was attempted exactly once, the client socket is closed — but
the backend socket is never closed by anyone, so the claim that both
sockets are closed for every session with a successful acquire is false. -/
theorem handleClient_undelivered_counterexample :
    HAction.closeBackend ∉ handleClient (Except.ok 0) false false false ∧
    (handleClient (Except.ok 0) false false false).countP isPut = 1 ∧
    HAction.copyServerToClient false ∈
      beforeRelease (handleClient (Except.ok 0) false false false) ∧
    HAction.copyClientToServer false ∈
      beforeRelease (handleClient (Except.ok 0) false false false) ∧
    HAction.closeClient ∈ handleClient (Except.ok 0) false false false := by
  decide

/-- Claim C6, amended: for a session whose acquire succeeded, both copy
directions appear in the handler trace and both lie strictly before the
release; the release is attempted exactly once and the client socket is
closed, whatever the error outcome of either copy direction; the backend
socket is closed exactly when the release send is accepted by the loop
before the PutConnection deadline — when that send times out, the backend
socket is not closed. -/
theorem handleClient_release_once_after_copies (c : Conn) (e1 e2 d : Bool) :
    (handleClient (Except.ok c) e1 e2 d).countP isPut = 1 ∧
    HAction.copyServerToClient e1 ∈ beforeRelease (handleClient (Except.ok c) e1 e2 d) ∧
    HAction.copyClientToServer e2 ∈ beforeRelease (handleClient (Except.ok c) e1 e2 d) ∧
    HAction.putConn (some c) ∈ handleClient (Except.ok c) e1 e2 d ∧
    (HAction.closeBackend ∈ handleClient (Except.ok c) e1 e2 d ↔ d = true) ∧
    HAction.closeClient ∈ handleClient (Except.ok c) e1 e2 d := by
  cases d <;>
    refine ⟨?_, ?_, ?_, ?_, ?_, ?_⟩ <;>
      simp [handleClient, beforeRelease, isPut, List.countP_cons]

/-- Claim C8: a GetConnection whose deadline expires before the request is
accepted returns the cancellation error with the connector state untouched;
one whose deadline expires while waiting for the reply also returns the
cancellation error, and the resulting connector state is exactly the state
produced by the in-flight transition — identical to the state after a
non-expired call — so the expiry itself contributes no state mutation. -/
theorem getConnection_expiry_no_mutation (b : OpBehavior) (s : SysState) :
    GetConnection b true false s = (GetOutcome.cancelled, s) ∧
    GetConnection b true true s = (GetOutcome.cancelled, s) ∧
    (GetConnection b false true s).1 = GetOutcome.cancelled ∧
    (GetConnection b false true s).2 = (processState b s).2 ∧
    (GetConnection b false true s).2 = (GetConnection b false false s).2 := by
  exact ⟨rfl, rfl, rfl, rfl, rfl⟩

/-- Claim C2: when an armed (live) shutdown timer fires while the route is
Empty, the operator callback invokes the stop command and leaves every
connector field untouched, merely posting a shutdown event; the loop step
that consumes the posted event performs the Empty to Off transition. The
whole timer-fire step is exactly the loop's shutdown step applied after the
callback's operator-only update. -/
theorem timer_fire_empty_to_off (b : OpBehavior) (s : SysState) (t : Nat)
    (hs : s.state = McState.empty) (ht : t ∈ s.op.liveTimers) :
    stepSys b s (SysEvent.timerFire t) =
      loopShutdownStep { s with op := (timerCallback s.op t).1 } ∧
    ({ s with op := (timerCallback s.op t).1 }).state = s.state ∧
    ({ s with op := (timerCallback s.op t).1 }).playerCount = s.playerCount ∧
    (stepSys b s (SysEvent.timerFire t)).state = McState.off ∧
    (stepSys b s (SysEvent.timerFire t)).op.stopCount = s.op.stopCount + 1 ∧
    (stepSys b s (SysEvent.timerFire t)).playerCount = s.playerCount := by
  refine ⟨?_, rfl, rfl, ?_, ?_, ?_⟩ <;>
    simp [stepSys, timerCallback, ht, loopShutdownStep, hs]

/-- Witness for the timer-fire theorem: the concrete route produced by
StartLoop bootstrap on a reachable backend with autoshutdown on is Empty
with timer 0 live; firing it yields state Off and one stop invocation. -/
theorem timer_fire_empty_to_off_witness :
    (startLoopInit true (newConnector true)).state = McState.empty ∧
    0 ∈ (startLoopInit true (newConnector true)).op.liveTimers ∧
    (stepSys bAll (startLoopInit true (newConnector true))
      (SysEvent.timerFire 0)).state = McState.off ∧
    (stepSys bAll (startLoopInit true (newConnector true))
      (SysEvent.timerFire 0)).op.stopCount =
        (startLoopInit true (newConnector true)).op.stopCount + 1 :=
  ⟨by decide, by decide,
    (timer_fire_empty_to_off bAll (startLoopInit true (newConnector true)) 0
      (by decide) (by decide)).2.2.2.1,
    (timer_fire_empty_to_off bAll (startLoopInit true (newConnector true)) 0
      (by decide) (by decide)).2.2.2.2.1⟩

/-- Claim C1: when N acquire requests (N at least 1) are queued while the
route is Off and the backend is healthy, the serialized loop issues exactly
one start command and exactly one reachability-poll sequence: the first
request drives the Off-StartingUp-Empty-Running transition and every queued
request behind it observes Running and only dials. -/
theorem acquire_off_single_start (s : SysState) (n : Nat)
    (hs : s.state = McState.off) (hn : 1 ≤ n) :
    (runSys bAll s (List.replicate n SysEvent.acquire)).startCount = s.startCount + 1 ∧
    (runSys bAll s (List.replicate n SysEvent.acquire)).awaitCount = s.awaitCount + 1 := by
  obtain ⟨m, rfl⟩ : ∃ m, n = m + 1 := ⟨n - 1, by omega⟩
  rw [List.replicate_succ, runSys, stepAcquire_off s hs]
  have h := run_replicate_running m
    { s with
      state := McState.running
      op := StopShuttingDown s.op
      playerCount := s.playerCount + 1
      startCount := s.startCount + 1
      awaitCount := s.awaitCount + 1 } rfl
  exact ⟨h.1, h.2.1⟩

/-- Witness for C1 at a concrete input: three queued acquires on a fresh
route issue one start and one poll sequence. -/
theorem acquire_off_single_start_witness :
    (runSys bAll (newConnector true)
      (List.replicate 3 SysEvent.acquire)).startCount =
        (newConnector true).startCount + 1 ∧
    (runSys bAll (newConnector true)
      (List.replicate 3 SysEvent.acquire)).awaitCount =
        (newConnector true).awaitCount + 1 :=
  acquire_off_single_start (newConnector true) 3 (by decide) (by decide)

/-- Claim C7: for a route with autoshutdown disabled and no timer armed, no
sequence of acquire, release and timer events ever arms a shutdown timer or
reaches the control-plane stop call. -/
theorem no_autoshutdown_no_stop (b : OpBehavior) (s : SysState)
    (evs : List SysEvent) (hA : s.autoshutdown = false)
    (hT : s.op.liveTimers = []) :
    ∀ k : Nat,
      (runSys b s (List.take k evs)).op.liveTimers = [] ∧
      (runSys b s (List.take k evs)).op.stopCount = s.op.stopCount := by
  intro k
  have h := run_noauto b (List.take k evs) s hA hT
  exact ⟨h.2.1, h.2.2⟩

/-- Witness for C7 at a concrete input: a route created with autoshutdown
off, serving an acquire, a release that drops the player count to zero, and
a stray timer-fire event, never arms a timer and never stops the backend. -/
theorem no_autoshutdown_no_stop_witness :
    (runSys bAll (newConnector false)
      (List.take 3 [SysEvent.acquire, SysEvent.release (some 0),
        SysEvent.timerFire 0])).op.liveTimers = [] ∧
    (runSys bAll (newConnector false)
      (List.take 3 [SysEvent.acquire, SysEvent.release (some 0),
        SysEvent.timerFire 0])).op.stopCount = (newConnector false).op.stopCount :=
  no_autoshutdown_no_stop bAll (newConnector false)
    [SysEvent.acquire, SysEvent.release (some 0), SysEvent.timerFire 0]
    (by decide) (by decide) 3

/-- Claim C4: starting from zero players, if along every prefix of the event
queue the number of non-nil releases does not exceed the number of
successful acquires (release called at most once per successful acquire),
the player count is non-negative after every prefix; moreover any step that
changes the player count either increments it by one on a successful
acquire or decrements it by one on a release of a non-nil connection. -/
theorem playerCount_nonneg (b : OpBehavior) (s : SysState) (evs : List SysEvent)
    (h0 : s.playerCount = 0)
    (h : ∀ k : Nat, k ≤ evs.length →
      relCount (List.take k evs) ≤ succCount b s (List.take k evs)) :
    (∀ k : Nat, 0 ≤ (runSys b s (List.take k evs)).playerCount) ∧
    (∀ (t : SysState) (e : SysEvent),
      (stepSys b t e).playerCount ≠ t.playerCount →
      ((stepSys b t e).playerCount = t.playerCount + 1 ∧ e = SysEvent.acquire ∧
        isOkB (processState b t).1 = true) ∨
      ((stepSys b t e).playerCount = t.playerCount - 1 ∧
        ∃ c : Conn, e = SysEvent.release (some c))) := by
  constructor
  · intro k
    rcases le_or_lt k evs.length with hk | hk
    · have hh := h k hk
      rw [runSys_playerCount, h0]
      omega
    · rw [List.take_of_length_le (le_of_lt hk)]
      have hh := h evs.length le_rfl
      rw [List.take_of_length_le le_rfl] at hh
      rw [runSys_playerCount, h0]
      omega
  · intro t e hne
    have hstep := stepSys_playerCount b t e
    cases e with
    | acquire =>
        by_cases hok : isOkB (processState b t).1 = true
        · left
          refine ⟨?_, rfl, hok⟩
          simp [succAcquire, relNonNil, hok] at hstep
          omega
        · exfalso
          apply hne
          simp [succAcquire, relNonNil, hok] at hstep
          omega
    | release c =>
        cases c with
        | none =>
            exfalso
            apply hne
            rfl
        | some c =>
            right
            refine ⟨?_, c, rfl⟩
            simp [succAcquire, relNonNil] at hstep
            omega
    | timerFire t2 =>
        exfalso
        apply hne
        simp [succAcquire, relNonNil] at hstep
        omega

/-- Witness for C4 at a concrete input: one successful acquire followed by
its release keeps the player count non-negative. -/
theorem playerCount_nonneg_witness :
    0 ≤ (runSys bAll (newConnector true)
      (List.take 2 [SysEvent.acquire, SysEvent.release (some 0)])).playerCount :=
  (playerCount_nonneg bAll (newConnector true)
    [SysEvent.acquire, SysEvent.release (some 0)]
    (by decide) (by decide)).1 2

end CraftyProxy
